import Mathlib

/-!
Verification of the RTT monitor (`scripts/rtt_monitor.py`) of the
embedded-test-framework repository.

The embedding models, faithfully to the Python source:
  * the `TestStatus` enumeration and the `TestResult` record,
  * the four `re` patterns compiled in `RTTMonitor.__init__` together with
    Python's `re.search` semantics (leftmost match, greedy quantifiers with
    backtracking) specialised to those four concrete patterns,
  * `RTTMonitor.parse_rtt_line` (line stripping, raw-log append, the status /
    result / summary / generic-log blocks in source order, including the early
    `return` in the summary block),
  * `RTTMonitor.check_success_condition` with its `success_conditions` list,
  * the pure part of `RTTMonitor.save_results` (the `output_data` object).

Conventions: Python's Unicode-aware `\w`, `\d` and `str.strip()` are modelled
on their ASCII fragment, following the spec's note that token boundaries are
ASCII.  Python `float` arithmetic for `success_rate` is modelled by exact
rationals; the only operations involved are one division and one
multiplication.  `datetime.now().isoformat()` is an opaque clock value and is
passed to `parse_rtt_line` as an explicit `now : String` argument.
-/

/-- Character class of Python's `\w` (ASCII fragment): letters, digits, `_`. -/
def isWordChar (c : Char) : Bool := c.isAlphanum || c == '_'

/-- Character class of Python's `\d` (ASCII fragment): decimal digits. -/
def isDigitChar (c : Char) : Bool := c.isDigit

/-- Character class of `.` in a Python regex (no `re.DOTALL`): anything but a
newline. -/
def isDotChar (c : Char) : Bool := c != '\n'

/-- Whitespace stripped by Python's `str.strip()` (ASCII fragment). -/
def pyIsSpace (c : Char) : Bool :=
  c == ' ' || c == '\t' || c == '\n' || c == '\r' || c == '\x0b' || c == '\x0c'

/-- Python `line.strip()`: remove leading and trailing whitespace. -/
def pyStrip (l : List Char) : List Char :=
  ((l.dropWhile pyIsSpace).reverse.dropWhile pyIsSpace).reverse

/-- Match a literal character sequence at the head of the input, returning the
remainder on success (the regex-literal part of a pattern). -/
def dropLit : List Char → List Char → Option (List Char)
  | [], l => some l
  | _ :: _, [] => none
  | c :: p, d :: l => if d = c then dropLit p l else none

/-- Python `re.search`: try the pattern matcher at every start position, left
to right, returning the captures of the leftmost position that matches. -/
def searchAux {α : Type} (m : List Char → Option α) : List Char → Option α
  | [] => m []
  | c :: cs =>
    match m (c :: cs) with
    | some r => some r
    | none => searchAux m cs

/-- Matcher for `STATUS:(\w+):(.+)` anchored at the current position.
`\w+` is greedy and is followed by the non-word character `:`, so the maximal
word run is the only candidate; `(.+)` is greedy with nothing after it, so it
captures the maximal nonempty newline-free run. -/
def statusAt (l : List Char) : Option (List Char × List Char) :=
  match dropLit "STATUS:".data l with
  | none => none
  | some r1 =>
    let w := r1.takeWhile isWordChar
    if w.isEmpty then none
    else
      match r1.dropWhile isWordChar with
      | ':' :: r3 =>
        let m := r3.takeWhile isDotChar
        if m.isEmpty then none else some (w, m)
      | _ => none

/-- One backtracking candidate for `RESULT:(.+):(PASS|FAIL):(\d+)`: the name
takes exactly `j` characters, then the literal tag and a nonempty digit run
must follow (`PASS` is tried before `FAIL`, as in the alternation). -/
def resultSplit (r1 : List Char) (j : Nat) : Option (List Char × Bool × List Char) :=
  let rest := r1.drop j
  match dropLit ":PASS:".data rest with
  | some r2 =>
    let d := r2.takeWhile isDigitChar
    if d.isEmpty then
      match dropLit ":FAIL:".data rest with
      | some r3 =>
        let d2 := r3.takeWhile isDigitChar
        if d2.isEmpty then none else some (r1.take j, false, d2)
      | none => none
    else some (r1.take j, true, d)
  | none =>
    match dropLit ":FAIL:".data rest with
    | some r3 =>
      let d2 := r3.takeWhile isDigitChar
      if d2.isEmpty then none else some (r1.take j, false, d2)
    | none => none

/-- Greedy backtracking of `(.+)` in the result pattern: try the longest name
first, then shorter ones, never the empty name. -/
def resultDescend (r1 : List Char) : Nat → Option (List Char × Bool × List Char)
  | 0 => none
  | j + 1 =>
    match resultSplit r1 (j + 1) with
    | some r => some r
    | none => resultDescend r1 j

/-- Matcher for `RESULT:(.+):(PASS|FAIL):(\d+)` anchored at the current
position.  `(.+)` may only span newline-free characters, hence the candidate
lengths range over the maximal newline-free run after the literal. -/
def resultAt (l : List Char) : Option (List Char × Bool × List Char) :=
  match dropLit "RESULT:".data l with
  | none => none
  | some r1 => resultDescend r1 (r1.takeWhile isDotChar).length

/-- Matcher for `SUMMARY:(\d+):(\d+):(\d+)` anchored at the current position.
Each `\d+` is greedy and is followed by a non-digit (`:`) or nothing, so the
maximal digit runs are the only candidates. -/
def summaryAt (l : List Char) : Option (List Char × List Char × List Char) :=
  match dropLit "SUMMARY:".data l with
  | none => none
  | some r1 =>
    let d1 := r1.takeWhile isDigitChar
    if d1.isEmpty then none
    else
      match r1.dropWhile isDigitChar with
      | ':' :: r3 =>
        let d2 := r3.takeWhile isDigitChar
        if d2.isEmpty then none
        else
          match r3.dropWhile isDigitChar with
          | ':' :: r5 =>
            let d3 := r5.takeWhile isDigitChar
            if d3.isEmpty then none else some (d1, d2, d3)
          | _ => none
      | _ => none

/-- Matcher for the generic log pattern `\[(\d+)\] \[(\w+)\] (.+)` anchored at
the current position. -/
def logAt (l : List Char) : Option (List Char × List Char × List Char) :=
  match l with
  | '[' :: r1 =>
    let d := r1.takeWhile isDigitChar
    if d.isEmpty then none
    else
      match r1.dropWhile isDigitChar with
      | ']' :: ' ' :: '[' :: r3 =>
        let w := r3.takeWhile isWordChar
        if w.isEmpty then none
        else
          match r3.dropWhile isWordChar with
          | ']' :: ' ' :: r5 =>
            let m := r5.takeWhile isDotChar
            if m.isEmpty then none else some (d, w, m)
          | _ => none
      | _ => none
  | _ => none

/-- `self.status_pattern.search(line)`: captures `(token, test_name)`. -/
def statusSearch (l : List Char) : Option (List Char × List Char) :=
  searchAux statusAt l

/-- `self.result_pattern.search(line)`: captures `(test_name, PASS?, digits)`. -/
def resultSearch (l : List Char) : Option (List Char × Bool × List Char) :=
  searchAux resultAt l

/-- `self.summary_pattern.search(line)`: captures `(total, passed, failed)`. -/
def summarySearch (l : List Char) : Option (List Char × List Char × List Char) :=
  searchAux summaryAt l

/-- `self.log_pattern.search(line)`: captures `(timestamp, level, message)`. -/
def logSearch (l : List Char) : Option (List Char × List Char × List Char) :=
  searchAux logAt l

/-- Python `int` applied to a `\d+` capture. -/
def digitsToNat (l : List Char) : Nat :=
  l.foldl (fun a c => 10 * a + (c.toNat - 48)) 0

/-- The `TestStatus` enumeration of the source. -/
inductive TestStatus where
  | INIT
  | RUNNING
  | PASS
  | FAIL
  | COMPLETE
deriving DecidableEq, Repr

/-- The `.value` string of each `TestStatus` member. -/
def statusValue : TestStatus → String
  | .INIT => "TEST_INIT"
  | .RUNNING => "TEST_RUNNING"
  | .PASS => "TEST_PASS"
  | .FAIL => "TEST_FAIL"
  | .COMPLETE => "TEST_COMPLETE"

/-- `TestStatus(status_str)`: lookup of an enum member by value; `none` models
the `ValueError` branch. -/
def toTestStatus : String → Option TestStatus
  | "TEST_INIT" => some .INIT
  | "TEST_RUNNING" => some .RUNNING
  | "TEST_PASS" => some .PASS
  | "TEST_FAIL" => some .FAIL
  | "TEST_COMPLETE" => some .COMPLETE
  | _ => none

/-- The `TestResult` dataclass.  `duration_ms` is `Optional[int]`; `timestamp`
is the creation time filled in by `__post_init__`; `log_messages` defaults to
the empty list. -/
structure TestResult where
  name : String
  status : TestStatus
  duration_ms : Option Nat
  timestamp : String
  log_messages : List String
deriving DecidableEq, Repr

/-- One entry of `self.log_buffer`. -/
structure RawLogEntry where
  timestamp : String
  raw : String
deriving DecidableEq, Repr

/-- The dict returned by the summary branch of `parse_rtt_line`.
`success_rate` models the Python float by an exact rational. -/
structure RunSummary where
  total : Nat
  passed : Nat
  failed : Nat
  success_rate : ℚ
deriving DecidableEq, Repr

/-- `self.test_results` is an insertion-ordered dict; modelled as an
association list where a new key is appended at the end. -/
def Registry : Type := List (String × TestResult)

/-- Python `name in self.test_results` / `self.test_results[name]`. -/
def regLookup : List (String × TestResult) → String → Option TestResult
  | [], _ => none
  | (k, v) :: t, n => if k = n then some v else regLookup t n

/-- In-place mutation `self.test_results[n].status = st`. -/
def regSetStatus : List (String × TestResult) → String → TestStatus →
    List (String × TestResult)
  | [], _, _ => []
  | (k, v) :: t, n, st =>
    if k = n then (k, { v with status := st }) :: t
    else (k, v) :: regSetStatus t n st

/-- In-place mutation of both `status` and `duration_ms` performed by the
result branch. -/
def regSetResult : List (String × TestResult) → String → TestStatus → Nat →
    List (String × TestResult)
  | [], _, _, _ => []
  | (k, v) :: t, n, st, d =>
    if k = n then (k, { v with status := st, duration_ms := some d }) :: t
    else (k, v) :: regSetResult t n st d

/-- The mutable state of an `RTTMonitor` touched by the parser: the registry
and the raw log buffer. -/
structure MonitorState where
  test_results : List (String × TestResult)
  log_buffer : List RawLogEntry
deriving DecidableEq, Repr

/-- The `# Parse status messages` block of `parse_rtt_line`: on a match with a
recognized token, create the record if absent or overwrite its status, and
print the status line; on a `ValueError`, print the unknown-status diagnostic
and leave the registry alone.  Returns the new registry and the printed
lines. -/
def statusStep (now : String) (l : List Char)
    (reg : List (String × TestResult)) : List (String × TestResult) × List String :=
  match statusSearch l with
  | some (tok, nm) =>
    match toTestStatus (String.mk tok) with
    | some st =>
      let name := String.mk nm
      let reg2 :=
        if (regLookup reg name).isSome then regSetStatus reg name st
        else reg ++ [(name, { name := name, status := st, duration_ms := none,
                              timestamp := now, log_messages := [] })]
      (reg2, ["[TEST_STATUS] " ++ name ++ ": " ++ statusValue st])
    | none => (reg, ["[RTT_MONITOR] Unknown status: " ++ String.mk tok])
  | none => (reg, [])

/-- The `# Parse result messages` block: on a match, update status and
duration only when the test name is already registered, and print the result
line. -/
def resultStep (l : List Char)
    (reg : List (String × TestResult)) : List (String × TestResult) × List String :=
  match resultSearch l with
  | some (nm, isP, d) =>
    let name := String.mk nm
    let st := if isP then TestStatus.PASS else TestStatus.FAIL
    let reg2 :=
      if (regLookup reg name).isSome then regSetResult reg name st (digitsToNat d)
      else reg
    (reg2, ["[TEST_RESULT] " ++ name ++ ": " ++ (if isP then "PASS" else "FAIL")
            ++ " (" ++ String.mk d ++ "ms)"])
  | none => (reg, [])

/-- The dict built by the summary branch, including
`(passed / total * 100) if total > 0 else 0`. -/
def mkRunSummary (t p f : Nat) : RunSummary :=
  { total := t, passed := p, failed := f,
    success_rate := if 0 < t then (p : ℚ) / (t : ℚ) * 100 else 0 }

/-- The `[TEST_SUMMARY]` print of the summary branch. -/
def summaryPrintOf (t p f : Nat) : String :=
  "[TEST_SUMMARY] Total: " ++ toString t ++ ", Passed: " ++ toString p
    ++ ", Failed: " ++ toString f

/-- The parsed summary a line yields, if any (`none` when the summary pattern
does not match). -/
def summaryOf (l : List Char) : Option RunSummary :=
  match summarySearch l with
  | some (d1, d2, d3) =>
    some (mkRunSummary (digitsToNat d1) (digitsToNat d2) (digitsToNat d3))
  | none => none

/-- The `# Parse regular log messages` block: its only effect is one print,
either the matched `[level] message` form or the `[RTT]` fallback. -/
def logPrints (l : List Char) : List String :=
  match logSearch l with
  | some (_, lvl, msg) => ["[" ++ String.mk lvl ++ "] " ++ String.mk msg]
  | none => ["[RTT] " ++ String.mk l]

/-- `RTTMonitor.parse_rtt_line`, transliterated block by block in source
order: strip the line; return immediately on an empty line; append the raw-log
entry; run the status block, then the result block; if the summary pattern
matches, print the summary and return the summary dict (skipping the
generic-log block, as the source's early `return` does); otherwise run the
generic-log block and return `None`.  The returned triple is (new state,
returned summary, lines printed to stdout in order). -/
def parse_rtt_line (now line : String) (s : MonitorState) :
    MonitorState × Option RunSummary × List String :=
  let l := pyStrip line.data
  if l.isEmpty then (s, none, [])
  else
    let buf := s.log_buffer ++ [{ timestamp := now, raw := String.mk l }]
    let st1 := statusStep now l s.test_results
    let st2 := resultStep l st1.1
    match summarySearch l with
    | some (d1, d2, d3) =>
      ({ test_results := st2.1, log_buffer := buf },
       some (mkRunSummary (digitsToNat d1) (digitsToNat d2) (digitsToNat d3)),
       st1.2 ++ st2.2 ++ [summaryPrintOf (digitsToNat d1) (digitsToNat d2) (digitsToNat d3)])
    | none =>
      ({ test_results := st2.1, log_buffer := buf }, none,
       st1.2 ++ st2.2 ++ logPrints l)

/-- The `self.success_conditions` list mixes a `TestStatus` value and a
callable; modelled as a closed sum. -/
inductive SuccessCondition where
  | statusCond (st : TestStatus)
  | predCond (f : List (String × TestResult) → Bool)

/-- `self.success_conditions` as initialised in `__init__`: the terminal
status `COMPLETE`, then the all-pass lambda
`lambda results: all(r.status == TestStatus.PASS for r in results.values())`. -/
def success_conditions : List SuccessCondition :=
  [.statusCond .COMPLETE,
   .predCond (fun results => results.all (fun p => decide (p.2.status = .PASS)))]

/-- `RTTMonitor.check_success_condition`: walk `success_conditions`; a
`TestStatus` entry is satisfied when some registered test has that status, a
callable entry when it returns truthy; return `True` on the first satisfied
condition, else `False`.  (The lambda in `success_conditions` is total, so the
`except` branch of the source is unreachable.) -/
def check_success_condition (results : List (String × TestResult)) : Bool :=
  success_conditions.any fun c =>
    match c with
    | .statusCond st => results.any (fun p => decide (p.2.status = st))
    | .predCond f => f results

/-- `check_success_condition` as a method of the monitor: it reads only
`self.test_results`. -/
def check_success_condition_state (s : MonitorState) : Bool :=
  check_success_condition s.test_results

/-- The `summary` member of the `output_data` dict of `save_results`. -/
structure ReportSummary where
  total_tests : Nat
  passed_tests : Nat
  failed_tests : Nat
deriving DecidableEq, Repr

/-- The `output_data` dict of `save_results` (its pure content; the JSON
serialisation and file write are outside the model). -/
structure Report where
  test_results : List (String × TestResult)
  log_buffer : List RawLogEntry
  summary : ReportSummary
deriving DecidableEq, Repr

/-- The pure part of `RTTMonitor.save_results`: the report is assembled from
the registry and the raw log buffer alone; the counts are
`len(self.test_results)` and the two `sum(1 for ... if r.status == ...)`
comprehensions. -/
def save_results (s : MonitorState) : Report :=
  { test_results := s.test_results,
    log_buffer := s.log_buffer,
    summary :=
      { total_tests := s.test_results.length,
        passed_tests := s.test_results.countP (fun p => decide (p.2.status = .PASS)),
        failed_tests := s.test_results.countP (fun p => decide (p.2.status = .FAIL)) } }

/-- Feeding a sequence of lines through the parser, discarding summaries and
prints (used to state registry invariants over a whole run). -/
def runLines (now : String) (lines : List String) (s : MonitorState) : MonitorState :=
  lines.foldl (fun st ln => (parse_rtt_line now ln st).1) s

/-- The line matches the status grammar with a token that maps to a
`TestStatus` value (exactly when the status block mutates the registry). -/
def statusRecognized (l : List Char) : Bool :=
  match statusSearch l with
  | some (tok, _) => (toTestStatus (String.mk tok)).isSome
  | none => false

/-- The status block of this line creates or overwrites precisely the record
named `n`: the status grammar matches, its token is recognized, and the
captured test name is `n`. -/
def statusNames (l : List Char) (n : String) : Bool :=
  match statusSearch l with
  | some (tok, nm) => (toTestStatus (String.mk tok)).isSome && decide (String.mk nm = n)
  | none => false

/-- The line matches the result grammar and the captured test name is present
in `reg` (exactly when the result block mutates the registry). -/
def resultRegistered (l : List Char) (reg : List (String × TestResult)) : Bool :=
  match resultSearch l with
  | some (nm, _, _) => (regLookup reg (String.mk nm)).isSome
  | none => false

theorem regLookup_append (r : List (String × TestResult)) (m n : String) (v : TestResult) :
    regLookup (r ++ [(m, v)]) n =
      match regLookup r n with
      | some x => some x
      | none => if m = n then some v else none := by
  induction r with
  | nil => rfl
  | cons hd t ih =>
    obtain ⟨k, w⟩ := hd
    by_cases hk : k = n <;> simp [regLookup, hk, ih]

theorem regSetStatus_lookup_self (r : List (String × TestResult)) (n : String) (st : TestStatus) :
    regLookup (regSetStatus r n st) n
      = (regLookup r n).map (fun v => { v with status := st }) := by
  induction r with
  | nil => rfl
  | cons hd t ih =>
    obtain ⟨k, w⟩ := hd
    by_cases hk : k = n <;> simp [regLookup, regSetStatus, hk, ih]

theorem regSetStatus_lookup_ne (r : List (String × TestResult)) (n m : String)
    (st : TestStatus) (h : m ≠ n) :
    regLookup (regSetStatus r n st) m = regLookup r m := by
  induction r with
  | nil => rfl
  | cons hd t ih =>
    obtain ⟨k, w⟩ := hd
    by_cases hk : k = n
    · subst hk
      simp [regLookup, regSetStatus, Ne.symm h]
    · by_cases hm : k = m <;> simp [regLookup, regSetStatus, hk, hm, ih, h]

theorem regSetResult_lookup_self (r : List (String × TestResult)) (n : String)
    (st : TestStatus) (d : Nat) :
    regLookup (regSetResult r n st d) n
      = (regLookup r n).map (fun v => { v with status := st, duration_ms := some d }) := by
  induction r with
  | nil => rfl
  | cons hd t ih =>
    obtain ⟨k, w⟩ := hd
    by_cases hk : k = n <;> simp [regLookup, regSetResult, hk, ih]

theorem regSetResult_lookup_ne (r : List (String × TestResult)) (n m : String)
    (st : TestStatus) (d : Nat) (h : m ≠ n) :
    regLookup (regSetResult r n st d) m = regLookup r m := by
  induction r with
  | nil => rfl
  | cons hd t ih =>
    obtain ⟨k, w⟩ := hd
    by_cases hk : k = n
    · subst hk
      simp [regLookup, regSetResult, Ne.symm h]
    · by_cases hm : k = m <;> simp [regLookup, regSetResult, hk, hm, ih, h]

theorem regSetStatus_lookup_isSome (r : List (String × TestResult)) (n m : String)
    (st : TestStatus) :
    (regLookup (regSetStatus r n st) m).isSome = (regLookup r m).isSome := by
  by_cases h : m = n
  · subst h
    rw [regSetStatus_lookup_self]
    cases regLookup r m <;> rfl
  · rw [regSetStatus_lookup_ne r n m st h]

theorem regSetResult_lookup_isSome (r : List (String × TestResult)) (n m : String)
    (st : TestStatus) (d : Nat) :
    (regLookup (regSetResult r n st d) m).isSome = (regLookup r m).isSome := by
  by_cases h : m = n
  · subst h
    rw [regSetResult_lookup_self]
    cases regLookup r m <;> rfl
  · rw [regSetResult_lookup_ne r n m st d h]

theorem statusStep_lookup_isSome_mono (now : String) (l : List Char)
    (reg : List (String × TestResult)) (n : String)
    (h : (regLookup reg n).isSome = true) :
    (regLookup (statusStep now l reg).1 n).isSome = true := by
  cases hs : statusSearch l with
  | none => simpa [statusStep, hs] using h
  | some g =>
    obtain ⟨tok, nm⟩ := g
    cases ht : toTestStatus (String.mk tok) with
    | none => simpa [statusStep, hs, ht] using h
    | some st =>
      by_cases hin : (regLookup reg (String.mk nm)).isSome = true
      · simp [statusStep, hs, ht, hin, regSetStatus_lookup_isSome, h]
      · cases hr : regLookup reg n with
        | some v => simp [statusStep, hs, ht, hin, regLookup_append, hr]
        | none => rw [hr] at h; exact absurd h (by simp)

theorem statusStep_new_iff (now : String) (l : List Char)
    (reg : List (String × TestResult)) (n : String)
    (h : regLookup reg n = none) :
    ((regLookup (statusStep now l reg).1 n).isSome = true ↔ statusNames l n = true) := by
  cases hs : statusSearch l with
  | none => simp [statusStep, statusNames, hs, h]
  | some g =>
    obtain ⟨tok, nm⟩ := g
    cases ht : toTestStatus (String.mk tok) with
    | none => simp [statusStep, statusNames, hs, ht, h]
    | some st =>
      by_cases hin : (regLookup reg (String.mk nm)).isSome = true
      · have hne : String.mk nm ≠ n := by
          intro he
          rw [he, h] at hin
          exact absurd hin (by simp)
        simp [statusStep, statusNames, hs, ht, hin, regSetStatus_lookup_isSome, h, hne]
      · by_cases he : String.mk nm = n
        · subst he
          simp [statusStep, statusNames, hs, ht, hin, regLookup_append, h]
        · simp [statusStep, statusNames, hs, ht, hin, regLookup_append, h, he]

theorem statusStep_id_of_unrecognized (now : String) (l : List Char)
    (reg : List (String × TestResult))
    (h : statusRecognized l = false) :
    (statusStep now l reg).1 = reg := by
  cases hs : statusSearch l with
  | none => simp [statusStep, hs]
  | some g =>
    obtain ⟨tok, nm⟩ := g
    simp only [statusRecognized, hs] at h
    cases ht : toTestStatus (String.mk tok) with
    | none => simp [statusStep, hs, ht]
    | some st => rw [ht] at h; exact absurd h (by simp)

theorem resultStep_lookup_isSome (l : List Char)
    (reg : List (String × TestResult)) (n : String) :
    (regLookup (resultStep l reg).1 n).isSome = (regLookup reg n).isSome := by
  unfold resultStep
  cases hs : resultSearch l with
  | none => rfl
  | some g =>
    obtain ⟨nm, isP, d⟩ := g
    simp only
    by_cases hin : (regLookup reg (String.mk nm)).isSome = true
    · simp [hin, regSetResult_lookup_isSome]
    · simp [hin]

theorem resultStep_id_of_absent (l : List Char)
    (reg : List (String × TestResult)) (nm : List Char) (b : Bool) (d : List Char)
    (hs : resultSearch l = some (nm, b, d))
    (h : regLookup reg (String.mk nm) = none) :
    (resultStep l reg).1 = reg := by
  unfold resultStep
  rw [hs]
  simp [h]

theorem resultStep_id_of_no_match (l : List Char)
    (reg : List (String × TestResult))
    (hs : resultSearch l = none) :
    (resultStep l reg).1 = reg := by
  unfold resultStep
  rw [hs]

theorem resultStep_update (l : List Char)
    (reg : List (String × TestResult)) (nm : List Char) (b : Bool) (d : List Char)
    (hs : resultSearch l = some (nm, b, d))
    (h : (regLookup reg (String.mk nm)).isSome = true) :
    (regLookup (resultStep l reg).1 (String.mk nm)).map (fun v => (v.status, v.duration_ms))
      = some ((if b then TestStatus.PASS else TestStatus.FAIL), some (digitsToNat d)) := by
  unfold resultStep
  rw [hs]
  simp only [h, if_true]
  rw [regSetResult_lookup_self]
  cases hr : regLookup reg (String.mk nm) with
  | some v => rfl
  | none => rw [hr] at h; exact absurd h (by simp)

theorem statusSearch_nil : statusSearch [] = none := rfl

theorem resultSearch_nil : resultSearch [] = none := rfl

theorem summarySearch_nil : summarySearch [] = none := rfl

theorem parse_rtt_line_of_empty (now line : String) (s : MonitorState)
    (h : (pyStrip line.data).isEmpty = true) :
    parse_rtt_line now line s = (s, none, []) := by
  unfold parse_rtt_line
  simp [h]

theorem parse_rtt_line_of_ne_empty (now line : String) (s : MonitorState)
    (h : (pyStrip line.data).isEmpty = false) :
    parse_rtt_line now line s =
      (⟨(resultStep (pyStrip line.data) (statusStep now (pyStrip line.data) s.test_results).1).1,
        s.log_buffer ++ [⟨now, String.mk (pyStrip line.data)⟩]⟩,
       summaryOf (pyStrip line.data),
       (statusStep now (pyStrip line.data) s.test_results).2
         ++ (resultStep (pyStrip line.data) (statusStep now (pyStrip line.data) s.test_results).1).2
         ++ (match summarySearch (pyStrip line.data) with
             | some g => [summaryPrintOf (digitsToNat g.1) (digitsToNat g.2.1) (digitsToNat g.2.2)]
             | none => logPrints (pyStrip line.data))) := by
  unfold parse_rtt_line
  cases hs : summarySearch (pyStrip line.data) with
  | none => simp [h, hs, summaryOf]
  | some g =>
    obtain ⟨d1, d2, d3⟩ := g
    simp [h, hs, summaryOf]

theorem isEmpty_false_of_statusSearch {l : List Char} {x : List Char × List Char}
    (h : statusSearch l = some x) : l.isEmpty = false := by
  cases l with
  | nil => rw [statusSearch_nil] at h; cases h
  | cons a t => rfl

theorem isEmpty_false_of_resultSearch {l : List Char} {x : List Char × Bool × List Char}
    (h : resultSearch l = some x) : l.isEmpty = false := by
  cases l with
  | nil => rw [resultSearch_nil] at h; cases h
  | cons a t => rfl

theorem isEmpty_false_of_summarySearch {l : List Char} {x : List Char × List Char × List Char}
    (h : summarySearch l = some x) : l.isEmpty = false := by
  cases l with
  | nil => rw [summarySearch_nil] at h; cases h
  | cons a t => rfl

theorem resultStep_id_of_unregistered (l : List Char) (reg : List (String × TestResult))
    (h : resultRegistered l reg = false) : (resultStep l reg).1 = reg := by
  cases hr : resultSearch l with
  | none => exact resultStep_id_of_no_match l reg hr
  | some g =>
    obtain ⟨nm, b, d⟩ := g
    simp only [resultRegistered, hr] at h
    cases hl : regLookup reg (String.mk nm) with
    | some v => rw [hl] at h; exact absurd h (by simp)
    | none => exact resultStep_id_of_absent l reg nm b d hr hl

theorem parse_lookup_isSome_mono (now line : String) (s : MonitorState) (n : String)
    (h : (regLookup s.test_results n).isSome = true) :
    (regLookup (parse_rtt_line now line s).1.test_results n).isSome = true := by
  by_cases he : (pyStrip line.data).isEmpty = true
  · rw [parse_rtt_line_of_empty now line s he]
    exact h
  · have hf : (pyStrip line.data).isEmpty = false := by simpa using he
    rw [parse_rtt_line_of_ne_empty now line s hf]
    simp only
    rw [resultStep_lookup_isSome]
    exact statusStep_lookup_isSome_mono now _ _ n h

theorem runLines_lookup_isSome_mono (now : String) (lines : List String)
    (s : MonitorState) (n : String)
    (h : (regLookup s.test_results n).isSome = true) :
    (regLookup (runLines now lines s).test_results n).isSome = true := by
  induction lines generalizing s with
  | nil => exact h
  | cons ln t ih => exact ih _ (parse_lookup_isSome_mono now ln s n h)

/-- C1: the spec claims `check_success_condition` returns `false` on an empty
registry (the all-pass rule is to require a non-empty registry).  Evaluating
the embedded code on the empty registry yields `true`: Python's `all()` over
an empty dict is vacuously true, so the all-pass lambda fires with no tests
registered.  The code therefore contradicts the documented success condition
at this input. -/
theorem C1_check_success_condition_empty : check_success_condition [] = true := rfl

/-- C2 (amended): the status, result and summary grammars are each tested
against every non-empty line and none of them suppresses another — the final
registry is the result block applied after the status block, the returned
summary depends only on the summary search, and the printed output is the
concatenation of the status, result and final-block effects; however, a
summary match returns early and suppresses the generic-log block, whose print
appears only when the summary grammar did not match. -/
theorem C2_marker_grammar_stages (now line : String) (s : MonitorState)
    (h : (pyStrip line.data).isEmpty = false) :
    (parse_rtt_line now line s).1.test_results
        = (resultStep (pyStrip line.data)
            (statusStep now (pyStrip line.data) s.test_results).1).1
    ∧ (parse_rtt_line now line s).2.1 = summaryOf (pyStrip line.data)
    ∧ (parse_rtt_line now line s).2.2
        = (statusStep now (pyStrip line.data) s.test_results).2
          ++ (resultStep (pyStrip line.data)
                (statusStep now (pyStrip line.data) s.test_results).1).2
          ++ (match summarySearch (pyStrip line.data) with
              | some g => [summaryPrintOf (digitsToNat g.1) (digitsToNat g.2.1)
                            (digitsToNat g.2.2)]
              | none => logPrints (pyStrip line.data)) := by
  rw [parse_rtt_line_of_ne_empty now line s h]
  exact ⟨rfl, rfl, rfl⟩

/-- C2 (counterexample): on `[1] [INFO] SUMMARY:1:1:0` the generic-log grammar
matches, yet its effect (the `[INFO] ...` print) is absent from the output
because the summary match returned early — so a match of one grammar does
suppress evaluation of another, refuting the claim as stated. -/
theorem C2_summary_suppresses_log_counterexample :
    (logSearch (pyStrip "[1] [INFO] SUMMARY:1:1:0".data)).isSome = true
    ∧ (parse_rtt_line "T0" "[1] [INFO] SUMMARY:1:1:0" ⟨[], []⟩).2.2
        = ["[TEST_SUMMARY] Total: 1, Passed: 1, Failed: 0"]
    ∧ ¬ ("[INFO] SUMMARY:1:1:0"
          ∈ (parse_rtt_line "T0" "[1] [INFO] SUMMARY:1:1:0" ⟨[], []⟩).2.2) := by
  decide

/-- C2 (witness): the staged description applies to a concrete line. -/
theorem C2_marker_grammar_stages_witness :
    (parse_rtt_line "T0" "hello" ⟨[], []⟩).2.1 = summaryOf (pyStrip "hello".data) :=
  (C2_marker_grammar_stages "T0" "hello" ⟨[], []⟩ (by decide)).2.1

/-- C3 (amended): a `TestResult` record is created exactly once per test name,
on the first status event with a recognized token naming it; result events
never create records.  Keys are never removed: a registered name stays
registered after every further line, and a name absent from the registry
becomes registered by one line exactly when that line's status grammar
matches with a recognized token and captures that name. -/
theorem C3_registry_keys (now line : String) (s : MonitorState) (n : String) :
    ((regLookup s.test_results n).isSome = true →
        (regLookup (parse_rtt_line now line s).1.test_results n).isSome = true)
    ∧ (regLookup s.test_results n = none →
        ((regLookup (parse_rtt_line now line s).1.test_results n).isSome = true
          ↔ statusNames (pyStrip line.data) n = true))
    ∧ (∀ lines : List String, (regLookup s.test_results n).isSome = true →
        (regLookup (runLines now lines s).test_results n).isSome = true) := by
  refine ⟨parse_lookup_isSome_mono now line s n, ?_, ?_⟩
  · intro hn
    by_cases he : (pyStrip line.data).isEmpty = true
    · rw [parse_rtt_line_of_empty now line s he, hn]
      have hl : pyStrip line.data = [] := by
        cases hc : pyStrip line.data with
        | nil => rfl
        | cons a t => rw [hc] at he; cases he
      rw [hl]
      simp [statusNames, statusSearch_nil]
    · have hf : (pyStrip line.data).isEmpty = false := by simpa using he
      rw [parse_rtt_line_of_ne_empty now line s hf]
      simp only
      rw [resultStep_lookup_isSome]
      exact statusStep_new_iff now _ _ n hn
  · intro lines h
    exact runLines_lookup_isSome_mono now lines s n h

/-- C3 (counterexample): `RESULT:t1:PASS:5` on an empty registry is the first
event referencing `t1`, yet no record is created — result markers never create
records, refuting the claim that the first referencing event (a result event
when no status event came first) creates one. -/
theorem C3_result_never_creates_counterexample :
    resultSearch (pyStrip "RESULT:t1:PASS:5".data) = some ("t1".data, true, "5".data)
    ∧ (parse_rtt_line "T0" "RESULT:t1:PASS:5" ⟨[], []⟩).1.test_results = [] := by
  decide

/-- C3 (witness): a status line creates the record it names. -/
theorem C3_registry_keys_witness :
    (regLookup (parse_rtt_line "T0" "STATUS:TEST_INIT:t1"
        ⟨[], []⟩).1.test_results "t1").isSome = true :=
  ((C3_registry_keys "T0" "STATUS:TEST_INIT:t1" ⟨[], []⟩ "t1").2.1 rfl).mpr (by decide)

/-- C4 (amended): for a line matching the result grammar whose captured test
name is absent from the registry, provided the line does not also match the
status grammar with a recognized token, parsing leaves the registry unchanged
— in particular no entry for the captured name is created — while the line is
still appended to the raw log buffer. -/
theorem C4_result_unknown_name (now line : String) (s : MonitorState)
    (nm : List Char) (b : Bool) (d : List Char)
    (hr : resultSearch (pyStrip line.data) = some (nm, b, d))
    (habs : regLookup s.test_results (String.mk nm) = none)
    (hst : statusRecognized (pyStrip line.data) = false) :
    (parse_rtt_line now line s).1.test_results = s.test_results
    ∧ regLookup (parse_rtt_line now line s).1.test_results (String.mk nm) = none
    ∧ (parse_rtt_line now line s).1.log_buffer
        = s.log_buffer ++ [⟨now, String.mk (pyStrip line.data)⟩] := by
  have hf : (pyStrip line.data).isEmpty = false := isEmpty_false_of_resultSearch hr
  rw [parse_rtt_line_of_ne_empty now line s hf]
  have h1 : (statusStep now (pyStrip line.data) s.test_results).1 = s.test_results :=
    statusStep_id_of_unrecognized now _ _ hst
  have h2 : (resultStep (pyStrip line.data)
      (statusStep now (pyStrip line.data) s.test_results).1).1 = s.test_results := by
    rw [h1]
    exact resultStep_id_of_absent _ _ nm b d hr habs
  exact ⟨h2, by rw [h2]; exact habs, rfl⟩

/-- C4 (counterexample): `STATUS:TEST_INIT:RESULT:b:FAIL:1` matches the result
grammar with absent test name `b`, yet parsing does change the registry — the
status grammar also matches and creates a record — refuting the claim that
the registry is left unchanged by every such line. -/
theorem C4_registry_changed_counterexample :
    resultSearch (pyStrip "STATUS:TEST_INIT:RESULT:b:FAIL:1".data)
        = some ("b".data, false, "1".data)
    ∧ regLookup ([] : List (String × TestResult)) "b" = none
    ∧ (parse_rtt_line "T0" "STATUS:TEST_INIT:RESULT:b:FAIL:1"
        ⟨[], []⟩).1.test_results ≠ [] := by
  decide

/-- C4 (witness): a plain unknown-name result line leaves the registry
empty. -/
theorem C4_result_unknown_name_witness :
    (parse_rtt_line "T0" "RESULT:b:FAIL:1" ⟨[], []⟩).1.test_results = [] :=
  (C4_result_unknown_name "T0" "RESULT:b:FAIL:1" ⟨[], []⟩ "b".data false "1".data
    (by decide) rfl (by decide)).1

/-- C5: for a line whose result grammar match captures `(n, PASS, d)` with `n`
already registered, after parsing the entry for `n` has status `PASS` and
`duration_ms` equal to `d`. -/
theorem C5_result_pass_updates (now line : String) (s : MonitorState)
    (nm d : List Char)
    (hr : resultSearch (pyStrip line.data) = some (nm, true, d))
    (hin : (regLookup s.test_results (String.mk nm)).isSome = true) :
    (regLookup (parse_rtt_line now line s).1.test_results (String.mk nm)).map
        (fun v => (v.status, v.duration_ms))
      = some (TestStatus.PASS, some (digitsToNat d)) := by
  have hf : (pyStrip line.data).isEmpty = false := isEmpty_false_of_resultSearch hr
  rw [parse_rtt_line_of_ne_empty now line s hf]
  have h1 := statusStep_lookup_isSome_mono now (pyStrip line.data) s.test_results
    (String.mk nm) hin
  have h2 := resultStep_update (pyStrip line.data)
    (statusStep now (pyStrip line.data) s.test_results).1 nm true d hr h1
  simpa using h2

/-- C5 (witness): `RESULT:t1:PASS:42` updates a registered `t1` to status
`PASS` with duration 42. -/
theorem C5_result_pass_updates_witness :
    (regLookup (parse_rtt_line "T1" "RESULT:t1:PASS:42"
        ⟨[("t1", ⟨"t1", .RUNNING, none, "T0", []⟩)], []⟩).1.test_results "t1").map
        (fun v => (v.status, v.duration_ms))
      = some (TestStatus.PASS, some 42) :=
  (C5_result_pass_updates "T1" "RESULT:t1:PASS:42"
      ⟨[("t1", ⟨"t1", .RUNNING, none, "T0", []⟩)], []⟩ "t1".data "42".data
      (by decide) (by decide)).trans (by decide)

/-- C6 (amended): a line whose summary grammar match captures
`(total, passed, failed)` makes the parser return a `RunSummary` carrying
those three integers and `success_rate = passed/total*100` (0 when
`total = 0`); the summary match itself does not touch the registry — on such
a line the registry can change only through a simultaneous status or result
grammar match, and is unchanged when neither mutates. -/
theorem C6_summary_parse (now line : String) (s : MonitorState)
    (d1 d2 d3 : List Char)
    (hs : summarySearch (pyStrip line.data) = some (d1, d2, d3)) :
    ((parse_rtt_line now line s).2.1.map
        (fun r => (r.total, r.passed, r.failed, r.success_rate)))
      = some (digitsToNat d1, digitsToNat d2, digitsToNat d3,
          if 0 < digitsToNat d1
          then (digitsToNat d2 : ℚ) / (digitsToNat d1 : ℚ) * 100 else 0)
    ∧ (statusRecognized (pyStrip line.data) = false →
        resultRegistered (pyStrip line.data) s.test_results = false →
        (parse_rtt_line now line s).1.test_results = s.test_results) := by
  have hf : (pyStrip line.data).isEmpty = false := isEmpty_false_of_summarySearch hs
  rw [parse_rtt_line_of_ne_empty now line s hf]
  constructor
  · simp [summaryOf, hs, mkRunSummary]
  · intro h1 h2
    have e1 : (statusStep now (pyStrip line.data) s.test_results).1 = s.test_results :=
      statusStep_id_of_unrecognized now _ _ h1
    simp only
    rw [e1]
    exact resultStep_id_of_unregistered _ _ h2

/-- C6 (counterexample): on `STATUS:TEST_INIT:SUMMARY:1:1:0` the summary
grammar matches and the computed `RunSummary` is returned, yet parsing the
line does modify the registry (the status grammar also matches), refuting the
claim that parsing a summary-matching line never modifies the registry. -/
theorem C6_registry_changed_counterexample :
    summarySearch (pyStrip "STATUS:TEST_INIT:SUMMARY:1:1:0".data)
        = some ("1".data, "1".data, "0".data)
    ∧ ((parse_rtt_line "T0" "STATUS:TEST_INIT:SUMMARY:1:1:0" ⟨[], []⟩).2.1.map
        (fun r => (r.total, r.passed, r.failed))) = some (1, 1, 0)
    ∧ (parse_rtt_line "T0" "STATUS:TEST_INIT:SUMMARY:1:1:0"
        ⟨[], []⟩).1.test_results ≠ [] := by
  decide

/-- C6 (witness): `SUMMARY:10:7:3` yields the summary `(10, 7, 3)` with
success rate 70. -/
theorem C6_summary_parse_witness :
    ((parse_rtt_line "T0" "SUMMARY:10:7:3" ⟨[], []⟩).2.1.map
        (fun r => (r.total, r.passed, r.failed, r.success_rate)))
      = some (10, 7, 3, 70) := by
  have h := (C6_summary_parse "T0" "SUMMARY:10:7:3" ⟨[], []⟩
    "10".data "7".data "3".data (by decide)).1
  rw [h]
  have e1 : digitsToNat "10".data = 10 := by decide
  have e2 : digitsToNat "7".data = 7 := by decide
  have e3 : digitsToNat "3".data = 3 := by decide
  rw [e1, e2, e3]
  norm_num

/-- C7: a line whose status grammar match carries a token that maps to no
`TestStatus` value leaves the registry untouched by the status block, emits
the unknown-status diagnostic, and is still recorded in the raw log buffer. -/
theorem C7_unknown_status_token (now line : String) (s : MonitorState)
    (tok nm : List Char)
    (hs : statusSearch (pyStrip line.data) = some (tok, nm))
    (hbad : toTestStatus (String.mk tok) = none) :
    (∀ reg : List (String × TestResult), (statusStep now (pyStrip line.data) reg).1 = reg)
    ∧ ("[RTT_MONITOR] Unknown status: " ++ String.mk tok)
        ∈ (parse_rtt_line now line s).2.2
    ∧ (parse_rtt_line now line s).1.log_buffer
        = s.log_buffer ++ [⟨now, String.mk (pyStrip line.data)⟩] := by
  have hf : (pyStrip line.data).isEmpty = false := isEmpty_false_of_statusSearch hs
  have hid : ∀ reg : List (String × TestResult),
      (statusStep now (pyStrip line.data) reg).1 = reg := by
    intro reg
    apply statusStep_id_of_unrecognized
    simp [statusRecognized, hs, hbad]
  refine ⟨hid, ?_, ?_⟩
  · rw [parse_rtt_line_of_ne_empty now line s hf]
    have hp : (statusStep now (pyStrip line.data) s.test_results).2
        = ["[RTT_MONITOR] Unknown status: " ++ String.mk tok] := by
      simp [statusStep, hs, hbad]
    simp only [hp]
    simp
  · rw [parse_rtt_line_of_ne_empty now line s hf]

/-- C7 (witness): `STATUS:BOGUS:t1` prints the unknown-status diagnostic. -/
theorem C7_unknown_status_token_witness :
    ("[RTT_MONITOR] Unknown status: " ++ "BOGUS")
      ∈ (parse_rtt_line "T0" "STATUS:BOGUS:t1" ⟨[], []⟩).2.2 :=
  (C7_unknown_status_token "T0" "STATUS:BOGUS:t1" ⟨[], []⟩ "BOGUS".data "t1".data
    (by decide) (by decide)).2.1

/-- C8: every line appends exactly one raw-log entry if and only if it is
non-empty after stripping; the append is independent of marker
classification, and an empty line produces no event, no print and no state
change at all. -/
theorem C8_raw_log_append (now line : String) (s : MonitorState) :
    ((parse_rtt_line now line s).1.log_buffer =
        if (pyStrip line.data).isEmpty then s.log_buffer
        else s.log_buffer ++ [⟨now, String.mk (pyStrip line.data)⟩])
    ∧ ((pyStrip line.data).isEmpty = true → parse_rtt_line now line s = (s, none, [])) := by
  constructor
  · by_cases he : (pyStrip line.data).isEmpty = true
    · rw [parse_rtt_line_of_empty now line s he, if_pos he]
    · have hf : (pyStrip line.data).isEmpty = false := by simpa using he
      rw [parse_rtt_line_of_ne_empty now line s hf, if_neg he]
  · exact parse_rtt_line_of_empty now line s

/-- C8 (witness): a whitespace-only line is a no-op; `hi` appends one raw-log
entry. -/
theorem C8_raw_log_append_witness :
    parse_rtt_line "T0" " " ⟨[], []⟩ = (⟨[], []⟩, none, [])
    ∧ (parse_rtt_line "T0" "hi" ⟨[], []⟩).1.log_buffer = [⟨"T0", "hi"⟩] :=
  ⟨(C8_raw_log_append "T0" " " ⟨[], []⟩).2 (by decide),
   ((C8_raw_log_append "T0" "hi" ⟨[], []⟩).1).trans (by decide)⟩

/-- C9: the success evaluator is a pure function of the registry: it depends
on `self.test_results` alone, so two monitor states with equal registries
(regardless of their raw log buffers) evaluate equally, and the evaluation is
the registry-level `check_success_condition`. -/
theorem C9_check_success_pure (s1 s2 : MonitorState)
    (h : s1.test_results = s2.test_results) :
    check_success_condition_state s1 = check_success_condition_state s2
    ∧ check_success_condition_state s1 = check_success_condition s1.test_results := by
  unfold check_success_condition_state
  rw [h]
  exact ⟨rfl, rfl⟩

/-- C9 (witness): states differing only in the raw log buffer evaluate
equally. -/
theorem C9_check_success_pure_witness :
    check_success_condition_state ⟨[], []⟩
      = check_success_condition_state ⟨[], [⟨"T0", "boot"⟩]⟩ :=
  (C9_check_success_pure ⟨[], []⟩ ⟨[], [⟨"T0", "boot"⟩]⟩ rfl).1

theorem countP_disjoint_le {α : Type} (p q : α → Bool)
    (h : ∀ a, p a = true → q a = false) :
    ∀ l : List α, l.countP p + l.countP q ≤ l.length := by
  intro l
  induction l with
  | nil => simp
  | cons a t ih =>
    simp only [List.countP_cons, List.length_cons]
    by_cases hp : p a = true
    · have hq := h a hp
      simp only [hp, hq, if_true, Bool.false_eq_true, if_false]
      omega
    · have hp2 : p a = false := by simpa using hp
      by_cases hq : q a = true
      · simp only [hp2, hq, if_true, Bool.false_eq_true, if_false]
        omega
      · have hq2 : q a = false := by simpa using hq
        simp only [hp2, hq2, Bool.false_eq_true, if_false]
        omega

theorem countP_disjoint_lt {α : Type} (p q : α → Bool)
    (h : ∀ a, p a = true → q a = false)
    (l : List α) (x : α) (hx : x ∈ l) (hpx : p x = false) (hqx : q x = false) :
    l.countP p + l.countP q < l.length := by
  induction l with
  | nil => cases hx
  | cons a t ih =>
    simp only [List.countP_cons, List.length_cons]
    rcases List.mem_cons.mp hx with he | hm
    · subst he
      have := countP_disjoint_le p q h t
      simp only [hpx, hqx, Bool.false_eq_true, if_false]
      omega
    · have := ih hm
      by_cases hp : p a = true
      · have hq := h a hp
        simp only [hp, hq, if_true, Bool.false_eq_true, if_false]
        omega
      · have hp2 : p a = false := by simpa using hp
        by_cases hq : q a = true
        · simp only [hp2, hq, if_true, Bool.false_eq_true, if_false]
          omega
        · have hq2 : q a = false := by simpa using hq
          simp only [hp2, hq2, Bool.false_eq_true, if_false]
          omega

/-- C10: in every report built by `save_results`, `total_tests` is the number
of registry entries, `passed_tests` counts entries with status `PASS`,
`failed_tests` counts entries with status `FAIL`; hence
`passed_tests + failed_tests <= total_tests`, strictly whenever some entry
has status `INIT`, `RUNNING` or `COMPLETE`.  The counts are computed from the
registry state alone — `save_results` takes no parsed `RunSummary`. -/
theorem C10_report_counts (s : MonitorState) :
    (save_results s).summary.total_tests = s.test_results.length
    ∧ (save_results s).summary.passed_tests
        = s.test_results.countP (fun p => decide (p.2.status = .PASS))
    ∧ (save_results s).summary.failed_tests
        = s.test_results.countP (fun p => decide (p.2.status = .FAIL))
    ∧ (save_results s).summary.passed_tests + (save_results s).summary.failed_tests
        ≤ (save_results s).summary.total_tests
    ∧ ((∃ p ∈ s.test_results,
          p.2.status = .INIT ∨ p.2.status = .RUNNING ∨ p.2.status = .COMPLETE) →
        (save_results s).summary.passed_tests + (save_results s).summary.failed_tests
          < (save_results s).summary.total_tests) := by
  have hdis : ∀ p : String × TestResult,
      decide (p.2.status = TestStatus.PASS) = true →
      decide (p.2.status = TestStatus.FAIL) = false := by
    intro p hp
    have h2 := of_decide_eq_true hp
    simp [h2]
  refine ⟨rfl, rfl, rfl, ?_, ?_⟩
  · exact countP_disjoint_le _ _ hdis s.test_results
  · rintro ⟨x, hx, hst⟩
    refine countP_disjoint_lt _ _ hdis s.test_results x hx ?_ ?_
    · rcases hst with h | h | h <;> simp [h]
    · rcases hst with h | h | h <;> simp [h]

/-- C10 (witness): with one `PASS` entry and one `INIT` entry,
`passed + failed < total`. -/
theorem C10_report_counts_witness :
    (save_results ⟨[("t1", ⟨"t1", .PASS, some 3, "T0", []⟩),
        ("t2", ⟨"t2", .INIT, none, "T0", []⟩)], []⟩).summary.passed_tests
      + (save_results ⟨[("t1", ⟨"t1", .PASS, some 3, "T0", []⟩),
          ("t2", ⟨"t2", .INIT, none, "T0", []⟩)], []⟩).summary.failed_tests
      < (save_results ⟨[("t1", ⟨"t1", .PASS, some 3, "T0", []⟩),
          ("t2", ⟨"t2", .INIT, none, "T0", []⟩)], []⟩).summary.total_tests :=
  (C10_report_counts ⟨[("t1", ⟨"t1", .PASS, some 3, "T0", []⟩),
      ("t2", ⟨"t2", .INIT, none, "T0", []⟩)], []⟩).2.2.2.2
    ⟨("t2", ⟨"t2", .INIT, none, "T0", []⟩), by decide, by decide⟩
